import Mathlib

/-!
Verification of the trip-planning pipeline in `llm_planner.py`
(class `LLMTripPlanner`).

The pipeline is a LangGraph workflow over a mutable `TripState` dict.
We embed it shallowly:

* `TripState` mirrors the `TripState` TypedDict (line 29-64).
* External collaborators (weather client, the two structured LLM chains,
  the airport resolver, the flight/hotel/attraction search clients, and
  the unstructured itinerary LLM call) are modelled by an `Env` record
  holding, for each call site, either the value the call returns
  (`Except.ok`) or the exception it raises (`Except.error msg`).
  Each call site is consulted exactly once per run, matching the code.
* Each node function (`fetch_weather_node`, ..., `generate_itinerary_node`)
  is translated as a function `Env → TripState → TripState`; Python
  `try/except` blocks become a `match` on the corresponding `Env` field.
* The graph of `_build_graph` (line 527-575) is an explicit node set with
  a successor function `nextNode`; `runGraph` is a fueled interpreter
  that also records the list of executed nodes.
* `plan_trip` (line 579-634) builds the initial state, runs the graph
  and packages the `Outcome` record.

Numbers (prices, budgets, duration) are modelled as `Int`; the claims
under verification only depend on order comparisons, never on float
rounding.
-/

/-- Forecast series inside the weather payload's `data` entry.  The
pipeline never inspects the series themselves, only the truthiness of
the `data` entry, so the series are kept as plain lists. -/
structure WeatherData where
  daily : List Int
  hourly : List Int
deriving Repr, DecidableEq

/-- Result of `weather_client.fetch_forecast_data`: a dict with optional
`remarks` and `data` entries (`none` models an absent / falsy entry). -/
structure WeatherPayload where
  remarks : Option String
  data : Option WeatherData
deriving Repr, DecidableEq

/-- Pydantic model `WeatherAnalysis` (line 69-74). -/
structure WeatherAnalysis where
  is_favorable : Bool
  summary : String
  concerns : List String
  recommendations : String
deriving Repr, DecidableEq

/-- Pydantic model `AlternateDestinations` (line 77-80). -/
structure AlternateDestinations where
  destinations : List String
  reasons : List String
deriving Repr, DecidableEq

/-- One entry of the `best_flights` list of a SerpApi flight payload;
`price` is optional, the code reads it with `.get('price', ...)`. -/
structure FlightOption where
  price : Option Int
deriving Repr, DecidableEq

/-- Flight search payload: a dict whose `best_flights` entry is a list. -/
structure FlightsPayload where
  best_flights : List FlightOption
deriving Repr, DecidableEq

/-- The `rate_per_night` sub-dict of a hotel property. -/
structure RatePerNight where
  extracted_lowest : Option Int
deriving Repr, DecidableEq

/-- One entry of the `properties` list of a SerpApi hotel payload. -/
structure HotelProperty where
  rate_per_night : Option RatePerNight
deriving Repr, DecidableEq

/-- Hotel search payload. -/
structure HotelsPayload where
  properties : List HotelProperty
deriving Repr, DecidableEq

/-- One entry of the `results` list of a Tripadvisor payload. -/
structure Attraction where
  title : Option String
deriving Repr, DecidableEq

/-- Attraction search payload. -/
structure AttractionsPayload where
  results : List Attraction
deriving Repr, DecidableEq

/-- Outcome of every external call a single pipeline run performs.
`Except.error e` means the call raises an exception whose string
rendering is `e`; `Except.ok v` means it returns `v`. -/
structure Env where
  weatherFetch : Except String WeatherPayload
  analyzeLLM : Except String WeatherAnalysis
  alternatesLLM : Except String AlternateDestinations
  depAirport : Except String String
  arrAirport : Except String String
  flightSearch : Except String FlightsPayload
  hotelSearch : Except String HotelsPayload
  attractionSearch : Except String AttractionsPayload
  itineraryLLM : Except String String
deriving Repr

/-- The `trip_details` dict handed to `plan_trip` (line 590-599). -/
structure TripRequest where
  destination : String
  departure : String
  start_date : String
  end_date : String
  duration : Int
  adults : Int
  budget_flight : Int
  budget_hotel : Int
  travel_type : String
deriving Repr, DecidableEq

/-- The `TripState` TypedDict (line 29-64). -/
structure TripState where
  destination : String
  departure : String
  start_date : String
  end_date : String
  duration : Int
  adults : Int
  budget_flight : Int
  budget_hotel : Int
  travel_type : String
  weather_data : Option WeatherPayload
  weather_favorable : Bool
  weather_analysis : String
  alternate_destinations : List String
  flights : Option FlightsPayload
  hotels : Option HotelsPayload
  attractions : Option AttractionsPayload
  budget_feasible : Bool
  budget_notes : String
  itinerary : String
  itinerary_markdown : String
  current_step : String
  messages : List String
  needs_replanning : Bool
deriving Repr, DecidableEq

/-- `initial_state` built by `plan_trip` (line 590-614). -/
def initialState (req : TripRequest) : TripState where
  destination := req.destination
  departure := req.departure
  start_date := req.start_date
  end_date := req.end_date
  duration := req.duration
  adults := req.adults
  budget_flight := req.budget_flight
  budget_hotel := req.budget_hotel
  travel_type := req.travel_type
  weather_data := none
  weather_favorable := true
  weather_analysis := ""
  alternate_destinations := []
  flights := none
  hotels := none
  attractions := none
  budget_feasible := true
  budget_notes := ""
  itinerary := ""
  itinerary_markdown := ""
  current_step := "initialized"
  messages := []
  needs_replanning := false

/-- `fetch_weather_node` (line 152-172).  On success it stores the
payload, appends a trace message built from the payload's remarks and
advances `current_step`; on exception it appends an error message and
sets `weather_data` to `None` (`current_step` is not touched in the
`except` branch). -/
def fetch_weather_node (env : Env) (s : TripState) : TripState :=
  let r : Option WeatherPayload × String × String :=
    match env.weatherFetch with
    | .ok result =>
        (some result, "Weather data fetched: " ++ result.remarks.getD "Success",
         "weather_fetched")
    | .error e => (none, "Weather fetch error: " ++ e, s.current_step)
  { s with weather_data := r.1, messages := s.messages ++ [r.2.1],
           current_step := r.2.2 }

/-- Branch outcome of `analyze_weather_node`: favorable flag, analysis
text, appended trace messages (possibly none), new `current_step`. -/
def analyzeRes (env : Env) (s : TripState) : Bool × String × List String × String :=
  match s.weather_data with
  | none =>
      (true, "Weather data unavailable, proceeding with planning.", [], s.current_step)
  | some w =>
      match w.data with
      | none =>
          (true, "Weather data unavailable, proceeding with planning.", [], s.current_step)
      | some _ =>
          match env.analyzeLLM with
          | .ok a =>
              (a.is_favorable, a.summary, ["Weather analysis: " ++ a.summary],
               "weather_analyzed")
          | .error _ =>
              (true, "Could not analyze weather, proceeding with planning.",
               [], "weather_analyzed")

/-- `analyze_weather_node` (line 174-232).  When `weather_data` is absent
or its `data` entry is falsy, the function returns early (fail-open,
no trace message, `current_step` untouched).  Otherwise it invokes the
structured LLM chain; on parse/invoke failure it fails open with a
fallback text and, in either LLM branch, sets
`current_step = "weather_analyzed"`; only the success branch appends a
trace message. -/
def analyze_weather_node (env : Env) (s : TripState) : TripState :=
  let r := analyzeRes env s
  { s with weather_favorable := r.1, weather_analysis := r.2.1,
           messages := s.messages ++ r.2.2.1, current_step := r.2.2.2 }

/-- `suggest_alternates_node` (line 234-288).  On LLM success it stores
the suggested destinations and appends a trace message; on failure it
stores the empty list and appends nothing.  Both branches set
`needs_replanning = true` and `current_step = "alternates_suggested"`. -/
def suggest_alternates_node (env : Env) (s : TripState) : TripState :=
  let r : List String × List String :=
    match env.alternatesLLM with
    | .ok a =>
        (a.destinations,
         ["Suggested alternates: " ++ String.intercalate ", " a.destinations])
    | .error _ => ([], [])
  { s with alternate_destinations := r.1, messages := s.messages ++ r.2,
           needs_replanning := true, current_step := "alternates_suggested" }

/-- `search_flights_node` (line 290-322).  Two airport lookups followed by
the flight search, all inside one `try`; the first exception aborts the
block, sets `flights = None` and appends a failure message. -/
def search_flights_node (env : Env) (s : TripState) : TripState :=
  let r : Option FlightsPayload × String :=
    match env.depAirport with
    | .error e => (none, "Flight search failed: " ++ e)
    | .ok dep =>
        match env.arrAirport with
        | .error e => (none, "Flight search failed: " ++ e)
        | .ok arr =>
            match env.flightSearch with
            | .error e => (none, "Flight search failed: " ++ e)
            | .ok fd => (some fd, "Found flights from " ++ dep ++ " to " ++ arr)
  { s with flights := r.1, messages := s.messages ++ [r.2],
           current_step := "flights_searched" }

/-- `search_hotels_node` (line 324-347).  The date parsing and the search
call share one `try`; any exception sets `hotels = None` with a failure
message. -/
def search_hotels_node (env : Env) (s : TripState) : TripState :=
  let r : Option HotelsPayload × String :=
    match env.hotelSearch with
    | .error e => (none, "Hotel search failed: " ++ e)
    | .ok hd => (some hd, "Found hotels in " ++ s.destination)
  { s with hotels := r.1, messages := s.messages ++ [r.2],
           current_step := "hotels_searched" }

/-- `search_attractions_node` (line 349-367). -/
def search_attractions_node (env : Env) (s : TripState) : TripState :=
  let r : Option AttractionsPayload × String :=
    match env.attractionSearch with
    | .error e => (none, "Attractions search failed: " ++ e)
    | .ok ad => (some ad, "Found attractions in " ++ s.destination)
  { s with attractions := r.1, messages := s.messages ++ [r.2],
           current_step := "attractions_searched" }

/-- Python's ordering key `x.get('price', float('inf'))` /
`x.get('rate_per_night', {}).get('extracted_lowest', float('inf'))`:
an absent value compares as positive infinity.  `ltKey a b` is the
strict comparison `a < b` under that convention. -/
def ltKey : Option Int → Option Int → Bool
  | some a, some b => decide (a < b)
  | some _, none => true
  | none, _ => false

/-- Python's `min(xs, key=...)`: `none` on the empty list (where Python
raises `ValueError`), otherwise the first element attaining the least
key (Python's `min` keeps the earlier element on ties). -/
def pyMin {α : Type} (key : α → Option Int) : List α → Option α
  | [] => none
  | x :: xs => some (xs.foldl (fun best y => if ltKey (key y) (key best) then y else best) x)

/-- The per-night rate key used by `check_budget_node` (line 397-398). -/
def hotelRate (p : HotelProperty) : Option Int :=
  p.rate_per_night.bind (fun r => r.extracted_lowest)

/-- Python's substring test `needle in hay`. -/
def hasSubstr (hay needle : String) : Bool :=
  decide (needle.data <:+: hay.data)

/-- `check_budget_node` (line 369-414).  Purely local computation: pick
the cheapest flight / hotel option, compare against the budgets, join
the notes with `"; "`, and derive `budget_feasible` as "no note contains
the word exceeds". -/
def check_budget_node (s : TripState) : TripState :=
  let flightNotes : List String :=
    match s.flights with
    | none => []
    | some fp =>
        match pyMin (fun o => o.price) fp.best_flights with
        | none => []
        | some cheapest =>
            let flight_price := cheapest.price.getD 0
            if flight_price > s.budget_flight then
              ["Flight cost (₹" ++ toString flight_price ++ ") exceeds budget (₹"
                ++ toString s.budget_flight ++ ")"]
            else
              ["Flights within budget: ₹" ++ toString flight_price]
  let hotelNotes : List String :=
    match s.hotels with
    | none => []
    | some hp =>
        match pyMin hotelRate hp.properties with
        | none => []
        | some cheapest =>
            let hotel_price := (hotelRate cheapest).getD 0
            if hotel_price > s.budget_hotel then
              ["Hotel cost ($" ++ toString hotel_price ++ "/night) exceeds budget ($"
                ++ toString s.budget_hotel ++ "/night)"]
            else
              ["Hotels within budget: $" ++ toString hotel_price ++ "/night"]
  let budget_analysis := flightNotes ++ hotelNotes
  let feasible := (budget_analysis.filter (fun a => hasSubstr a "exceeds")).length == 0
  let notes :=
    if budget_analysis.isEmpty then "Budget analysis pending"
    else String.intercalate "; " budget_analysis
  { s with budget_feasible := feasible, budget_notes := notes,
           messages := s.messages ++ ["Budget check: " ++ notes],
           current_step := "budget_checked" }

/-- `generate_itinerary_node` (line 416-455).  On LLM failure the
itinerary is replaced by a fixed error markdown string. -/
def generate_itinerary_node (env : Env) (s : TripState) : TripState :=
  let r : String × String :=
    match env.itineraryLLM with
    | .ok content => (content, "Itinerary generated successfully")
    | .error e =>
        ("# Error generating itinerary\n\nPlease try again.",
         "Itinerary generation failed: " ++ e)
  { s with itinerary_markdown := r.1, messages := s.messages ++ [r.2],
           current_step := "itinerary_generated" }

/-- `should_suggest_alternates` (line 459-464). -/
def should_suggest_alternates (s : TripState) : String :=
  if s.weather_favorable then "proceed_to_search" else "suggest_alternates"

/-- `should_proceed_with_plan` (line 466-470): constant. -/
def should_proceed_with_plan (_s : TripState) : String :=
  "generate_itinerary"

/-- The eight graph nodes registered in `_build_graph` (line 531-539). -/
inductive Node where
  | fetch_weather
  | analyze_weather
  | suggest_alternates
  | search_flights
  | search_hotels
  | search_attractions
  | check_budget
  | generate_itinerary
deriving Repr, DecidableEq

/-- Dispatch a node name to its node function. -/
def applyNode (env : Env) : Node → TripState → TripState
  | .fetch_weather, s => fetch_weather_node env s
  | .analyze_weather, s => analyze_weather_node env s
  | .suggest_alternates, s => suggest_alternates_node env s
  | .search_flights, s => search_flights_node env s
  | .search_hotels, s => search_hotels_node env s
  | .search_attractions, s => search_attractions_node env s
  | .check_budget, s => check_budget_node s
  | .generate_itinerary, s => generate_itinerary_node env s

/-- Edges of `_build_graph` (line 541-573).  A conditional edge routes on
the string returned by the decision function, through the mapping dict
given in `add_conditional_edges`; `none` is the END sentinel. -/
def nextNode : Node → TripState → Option Node
  | .fetch_weather, _ => some .analyze_weather
  | .analyze_weather, s =>
      let d := should_suggest_alternates s
      if d = "suggest_alternates" then some .suggest_alternates
      else if d = "proceed_to_search" then some .search_flights
      else none
  | .suggest_alternates, _ => none
  | .search_flights, _ => some .search_hotels
  | .search_hotels, _ => some .search_attractions
  | .search_attractions, _ => some .check_budget
  | .check_budget, s =>
      let d := should_proceed_with_plan s
      if d = "generate_itinerary" then some .generate_itinerary else none
  | .generate_itinerary, _ => none

/-- Fueled interpreter for the compiled graph: run the current node, then
follow its (possibly conditional) outgoing edge, recording the executed
nodes in order.  Fuel 8 is enough for both paths (3 and 7 nodes). -/
def runGraph (env : Env) : Nat → Node → TripState → TripState × List Node
  | 0, _, s => (s, [])
  | fuel + 1, n, s =>
      let s' := applyNode env n s
      match nextNode n s' with
      | none => (s', [n])
      | some m =>
          let r := runGraph env fuel m s'
          (r.1, n :: r.2)

/-- The state after `fetch_weather` and `analyze_weather` have run; the
weather fork of the graph routes on this state's `weather_favorable`. -/
def analyzedState (env : Env) (req : TripRequest) : TripState :=
  analyze_weather_node env (fetch_weather_node env (initialState req))

/-- Final state of `self.graph.invoke(initial_state)` (line 618). -/
def finalState (env : Env) (req : TripRequest) : TripState :=
  (runGraph env 8 Node.fetch_weather (initialState req)).1

/-- The nodes executed by the run, in order. -/
def executedNodes (env : Env) (req : TripRequest) : List Node :=
  (runGraph env 8 Node.fetch_weather (initialState req)).2

/-- The `raw_data` sub-dict of the outcome (line 628-633). -/
structure RawData where
  weather : Option WeatherPayload
  flights : Option FlightsPayload
  hotels : Option HotelsPayload
  attractions : Option AttractionsPayload
deriving Repr, DecidableEq

/-- The dict returned by `plan_trip` (line 620-634). -/
structure Outcome where
  success : Bool
  itinerary_markdown : String
  weather_favorable : Bool
  alternate_destinations : List String
  budget_feasible : Bool
  budget_notes : String
  messages : List String
  raw_data : RawData
deriving Repr, DecidableEq

/-- `plan_trip` (line 579-634): build the initial state, run the graph,
package the outcome (`success = not needs_replanning`). -/
def plan_trip (env : Env) (req : TripRequest) : Outcome :=
  let fs := finalState env req
  { success := !fs.needs_replanning
    itinerary_markdown := fs.itinerary_markdown
    weather_favorable := fs.weather_favorable
    alternate_destinations := fs.alternate_destinations
    budget_feasible := fs.budget_feasible
    budget_notes := fs.budget_notes
    messages := fs.messages
    raw_data :=
      { weather := fs.weather_data, flights := fs.flights,
        hotels := fs.hotels, attractions := fs.attractions } }

/-- A concrete trip request used to instantiate theorems. -/
def reqBangkok : TripRequest where
  destination := "Bangkok"
  departure := "Delhi"
  start_date := "2025-11-01"
  end_date := "2025-11-08"
  duration := 7
  adults := 2
  budget_flight := 45000
  budget_hotel := 250
  travel_type := "Sightseeing"

/-- A weather payload with a non-empty `data` entry. -/
def wPayloadOK : WeatherPayload where
  remarks := some "ok"
  data := some { daily := [30, 31], hourly := [0, 1] }

/-- Environment where every collaborator succeeds and the weather
analysis is favorable. -/
def envFavOK : Env where
  weatherFetch := .ok wPayloadOK
  analyzeLLM := .ok { is_favorable := true, summary := "sunny", concerns := [],
                      recommendations := "go" }
  alternatesLLM := .ok { destinations := ["goa", "jaipur", "hampi"],
                         reasons := ["dry", "dry", "dry"] }
  depAirport := .ok "DEL"
  arrAirport := .ok "BKK"
  flightSearch := .ok { best_flights := [{ price := some 40000 }] }
  hotelSearch := .ok { properties := [{ rate_per_night := some { extracted_lowest := some 200 } }] }
  attractionSearch := .ok { results := [{ title := some "Temple" }] }
  itineraryLLM := .ok "## Day 1: arrival"

/-- Environment where every collaborator succeeds but the weather
analysis is unfavorable. -/
def envUnfavOK : Env :=
  { envFavOK with
    analyzeLLM := .ok { is_favorable := false, summary := "storm", concerns := ["rain"],
                        recommendations := "avoid" } }

/-- Environment where every collaborator raises. -/
def envAllFail : Env where
  weatherFetch := .error "weather down"
  analyzeLLM := .error "llm down"
  alternatesLLM := .error "llm down"
  depAirport := .error "amadeus down"
  arrAirport := .error "amadeus down"
  flightSearch := .error "serpapi down"
  hotelSearch := .error "serpapi down"
  attractionSearch := .error "tripadvisor down"
  itineraryLLM := .error "llm down"

/-- Environment with unfavorable weather and a failing alternates LLM. -/
def envUnfavAltFail : Env :=
  { envUnfavOK with alternatesLLM := .error "parse error" }

/-- Environment where everything succeeds but the itinerary LLM returns
the empty string. -/
def envFavEmptyItinerary : Env :=
  { envFavOK with itineraryLLM := .ok "" }

/-- A concrete state at the budget-check step, for instantiations. -/
def stateAtBudget : TripState :=
  { initialState reqBangkok with
    flights := some { best_flights := [{ price := some 50000 }] }
    hotels := some { properties := [{ rate_per_night := some { extracted_lowest := some 200 } }] } }

/-! ## Interpreter unfolding lemmas -/

theorem runGraph_succ (env : Env) (fuel : Nat) (n : Node) (s : TripState) :
    runGraph env (fuel + 1) n s =
      match nextNode n (applyNode env n s) with
      | none => (applyNode env n s, [n])
      | some m =>
          let r := runGraph env fuel m (applyNode env n s)
          (r.1, n :: r.2) := rfl

theorem nextNode_analyze_of_unfav (s : TripState) (h : s.weather_favorable = false) :
    nextNode Node.analyze_weather s = some Node.suggest_alternates := by
  simp [nextNode, should_suggest_alternates, h]

theorem nextNode_analyze_of_fav (s : TripState) (h : s.weather_favorable = true) :
    nextNode Node.analyze_weather s = some Node.search_flights := by
  simp [nextNode, should_suggest_alternates, h]

theorem runGraph_unfav (env : Env) (req : TripRequest)
    (h : (analyzedState env req).weather_favorable = false) :
    runGraph env 8 Node.fetch_weather (initialState req) =
      (suggest_alternates_node env (analyzedState env req),
       [Node.fetch_weather, Node.analyze_weather, Node.suggest_alternates]) := by
  have e1 : runGraph env 8 Node.fetch_weather (initialState req) =
      (let r := runGraph env 7 Node.analyze_weather
        (fetch_weather_node env (initialState req)); (r.1, Node.fetch_weather :: r.2)) := rfl
  rw [e1]
  have e2 : runGraph env 7 Node.analyze_weather (fetch_weather_node env (initialState req)) =
      match nextNode Node.analyze_weather (analyzedState env req) with
      | none => (analyzedState env req, [Node.analyze_weather])
      | some m =>
          let r := runGraph env 6 m (analyzedState env req)
          (r.1, Node.analyze_weather :: r.2) := rfl
  rw [e2, nextNode_analyze_of_unfav _ h]
  rfl

theorem runGraph_fav (env : Env) (req : TripRequest)
    (h : (analyzedState env req).weather_favorable = true) :
    runGraph env 8 Node.fetch_weather (initialState req) =
      (generate_itinerary_node env
        (check_budget_node
          (search_attractions_node env
            (search_hotels_node env
              (search_flights_node env (analyzedState env req))))),
       [Node.fetch_weather, Node.analyze_weather, Node.search_flights,
        Node.search_hotels, Node.search_attractions, Node.check_budget,
        Node.generate_itinerary]) := by
  have e1 : runGraph env 8 Node.fetch_weather (initialState req) =
      (let r := runGraph env 7 Node.analyze_weather
        (fetch_weather_node env (initialState req)); (r.1, Node.fetch_weather :: r.2)) := rfl
  rw [e1]
  have e2 : runGraph env 7 Node.analyze_weather (fetch_weather_node env (initialState req)) =
      match nextNode Node.analyze_weather (analyzedState env req) with
      | none => (analyzedState env req, [Node.analyze_weather])
      | some m =>
          let r := runGraph env 6 m (analyzedState env req)
          (r.1, Node.analyze_weather :: r.2) := rfl
  rw [e2, nextNode_analyze_of_fav _ h]
  rfl

/-! ## Claim theorems -/

/-- C1: for every pipeline run in which `weather_favorable` is false after
the ANALYZE_WEATHER step, the returned outcome has
`needs_replanning == true` and an empty `itinerary_markdown`, and none of
the flight-search, hotel-search, or attraction-search steps is ever
executed on that run. -/
theorem C1_unfavorable_short_circuit (env : Env) (req : TripRequest)
    (h : (analyzedState env req).weather_favorable = false) :
    (finalState env req).needs_replanning = true
    ∧ (plan_trip env req).itinerary_markdown = ""
    ∧ Node.search_flights ∉ executedNodes env req
    ∧ Node.search_hotels ∉ executedNodes env req
    ∧ Node.search_attractions ∉ executedNodes env req := by
  have hrun := runGraph_unfav env req h
  refine ⟨?_, ?_, ?_, ?_, ?_⟩
  · simp [finalState, hrun, suggest_alternates_node]
  · simp only [plan_trip, finalState, hrun]
    simp [suggest_alternates_node, analyzedState, analyze_weather_node,
      fetch_weather_node, initialState]
  all_goals simp [executedNodes, hrun]

/-- Witness for C1 at a concrete unfavorable-weather run. -/
theorem C1_witness :
    (finalState envUnfavOK reqBangkok).needs_replanning = true
    ∧ (plan_trip envUnfavOK reqBangkok).itinerary_markdown = ""
    ∧ Node.search_flights ∉ executedNodes envUnfavOK reqBangkok
    ∧ Node.search_hotels ∉ executedNodes envUnfavOK reqBangkok
    ∧ Node.search_attractions ∉ executedNodes envUnfavOK reqBangkok :=
  C1_unfavorable_short_circuit envUnfavOK reqBangkok rfl

/-- C3: for every request whose weather fetch raises any failure, the
pipeline sets `weather_favorable` to true (fail-open), proceeds down the
favorable branch, still executes GENERATE_ITINERARY, and produces an
outcome with `needs_replanning == false` (`success = true`). -/
theorem C3_weather_fetch_fail_open (env : Env) (req : TripRequest) (e : String)
    (h : env.weatherFetch = .error e) :
    (analyzedState env req).weather_favorable = true
    ∧ Node.generate_itinerary ∈ executedNodes env req
    ∧ (plan_trip env req).success = true := by
  have hfav : (analyzedState env req).weather_favorable = true := by
    simp [analyzedState, analyze_weather_node, analyzeRes, fetch_weather_node, h]
  have hrun := runGraph_fav env req hfav
  refine ⟨hfav, ?_, ?_⟩
  · simp [executedNodes, hrun]
  · simp only [plan_trip, finalState, hrun]
    simp [generate_itinerary_node, check_budget_node, search_attractions_node,
      search_hotels_node, search_flights_node, analyzedState, analyze_weather_node,
      fetch_weather_node, initialState]

/-- Witness for C3 at a concrete run with a failing weather client. -/
theorem C3_witness :
    (analyzedState envAllFail reqBangkok).weather_favorable = true
    ∧ Node.generate_itinerary ∈ executedNodes envAllFail reqBangkok
    ∧ (plan_trip envAllFail reqBangkok).success = true :=
  C3_weather_fetch_fail_open envAllFail reqBangkok "weather down" rfl

/-- C7: for every run entering SUGGEST_ALTERNATES, if the LLM invocation
or schema parse fails then `alternate_destinations` is set to the empty
list rather than failing the pipeline, and in every case
`needs_replanning` is set to true and the run terminates immediately
after this step (it is the last executed node). -/
theorem C7_suggest_alternates_terminal (env : Env) (req : TripRequest)
    (h : Node.suggest_alternates ∈ executedNodes env req) :
    (∀ e, env.alternatesLLM = .error e → (finalState env req).alternate_destinations = [])
    ∧ (finalState env req).needs_replanning = true
    ∧ (executedNodes env req).getLast? = some Node.suggest_alternates := by
  cases hb : (analyzedState env req).weather_favorable with
  | true =>
      have hrun := runGraph_fav env req hb
      rw [executedNodes, hrun] at h
      simp at h
  | false =>
      have hrun := runGraph_unfav env req hb
      refine ⟨?_, ?_, ?_⟩
      · intro e he
        simp [finalState, hrun, suggest_alternates_node, he]
      · simp [finalState, hrun, suggest_alternates_node]
      · simp [executedNodes, hrun]

/-- Witness for C7 at a concrete run with a failing alternates LLM. -/
theorem C7_witness :
    (∀ e, envUnfavAltFail.alternatesLLM = .error e →
      (finalState envUnfavAltFail reqBangkok).alternate_destinations = [])
    ∧ (finalState envUnfavAltFail reqBangkok).needs_replanning = true
    ∧ (executedNodes envUnfavAltFail reqBangkok).getLast? = some Node.suggest_alternates :=
  C7_suggest_alternates_terminal envUnfavAltFail reqBangkok (by decide)

/-- C9: on every run that takes the unfavorable-weather path, the
returned outcome reports `budget_feasible == true` and
`budget_notes == ""` (the initial defaults), because CHECK_BUDGET never
executes on that path; `success == false` therefore never implies budget
infeasibility. -/
theorem C9_unfavorable_budget_defaults (env : Env) (req : TripRequest)
    (h : (analyzedState env req).weather_favorable = false) :
    (plan_trip env req).budget_feasible = true
    ∧ (plan_trip env req).budget_notes = ""
    ∧ (plan_trip env req).success = false
    ∧ Node.check_budget ∉ executedNodes env req := by
  have hrun := runGraph_unfav env req h
  refine ⟨?_, ?_, ?_, ?_⟩
  · simp only [plan_trip, finalState, hrun]
    simp [suggest_alternates_node, analyzedState, analyze_weather_node,
      fetch_weather_node, initialState]
  · simp only [plan_trip, finalState, hrun]
    simp [suggest_alternates_node, analyzedState, analyze_weather_node,
      fetch_weather_node, initialState]
  · simp [plan_trip, finalState, hrun, suggest_alternates_node]
  · simp [executedNodes, hrun]

/-- Witness for C9 at a concrete unfavorable-weather run. -/
theorem C9_witness :
    (plan_trip envUnfavOK reqBangkok).budget_feasible = true
    ∧ (plan_trip envUnfavOK reqBangkok).budget_notes = ""
    ∧ (plan_trip envUnfavOK reqBangkok).success = false
    ∧ Node.check_budget ∉ executedNodes envUnfavOK reqBangkok :=
  C9_unfavorable_budget_defaults envUnfavOK reqBangkok rfl

/-- C10: the post-budget decision function returns `"generate_itinerary"`
for every state, so every run that reaches CHECK_BUDGET always proceeds
to GENERATE_ITINERARY regardless of `budget_feasible`. -/
theorem C10_budget_never_blocks :
    (∀ s : TripState, should_proceed_with_plan s = "generate_itinerary")
    ∧ (∀ (env : Env) (req : TripRequest), Node.check_budget ∈ executedNodes env req →
        Node.generate_itinerary ∈ executedNodes env req) := by
  refine ⟨fun s => rfl, fun env req h => ?_⟩
  cases hb : (analyzedState env req).weather_favorable with
  | true =>
      have hrun := runGraph_fav env req hb
      simp [executedNodes, hrun]
  | false =>
      have hrun := runGraph_unfav env req hb
      rw [executedNodes, hrun] at h
      simp at h

/-- Witness for C10 at a concrete state and a concrete favorable run. -/
theorem C10_witness :
    should_proceed_with_plan stateAtBudget = "generate_itinerary"
    ∧ Node.generate_itinerary ∈ executedNodes envFavOK reqBangkok :=
  ⟨C10_budget_never_blocks.1 stateAtBudget,
   C10_budget_never_blocks.2 envFavOK reqBangkok (by decide)⟩

/-- C2 counterexample: when every collaborator succeeds but the itinerary
LLM returns the empty string, the run ends with `needs_replanning = false`
and an empty `itinerary_markdown`: neither terminal shape of the claim
holds, so the "exactly one of two terminal shapes" claim is false as
stated. -/
theorem C2_counterexample :
    ¬ (((finalState envFavEmptyItinerary reqBangkok).needs_replanning = true
        ∧ (finalState envFavEmptyItinerary reqBangkok).itinerary_markdown = "")
      ∨ ((finalState envFavEmptyItinerary reqBangkok).needs_replanning = false
        ∧ (finalState envFavEmptyItinerary reqBangkok).itinerary_markdown ≠ ""
        ∧ (finalState envFavEmptyItinerary reqBangkok).alternate_destinations = [])) := by
  have h1 : (finalState envFavEmptyItinerary reqBangkok).needs_replanning = false := rfl
  have h2 : (finalState envFavEmptyItinerary reqBangkok).itinerary_markdown = "" := rfl
  simp [h1, h2]

/-- C2 amended: provided the itinerary LLM never returns empty text, every
completed run ends in exactly one of the two terminal shapes — (a)
`needs_replanning = true` with empty `itinerary_markdown`, or (b)
`needs_replanning = false` with non-empty `itinerary_markdown` (the LLM
text, or the fixed error markdown on failure) and empty
`alternate_destinations` — and never in both. -/
theorem C2_amended_terminal_shapes (env : Env) (req : TripRequest)
    (hne : ∀ t, env.itineraryLLM = .ok t → t ≠ "") :
    (((finalState env req).needs_replanning = true
        ∧ (finalState env req).itinerary_markdown = "")
      ∨ ((finalState env req).needs_replanning = false
        ∧ (finalState env req).itinerary_markdown ≠ ""
        ∧ (finalState env req).alternate_destinations = []))
    ∧ ¬ (((finalState env req).needs_replanning = true
        ∧ (finalState env req).itinerary_markdown = "")
      ∧ ((finalState env req).needs_replanning = false
        ∧ (finalState env req).itinerary_markdown ≠ ""
        ∧ (finalState env req).alternate_destinations = [])) := by
  constructor
  · cases hb : (analyzedState env req).weather_favorable with
    | false =>
        have hrun := runGraph_unfav env req hb
        left
        constructor
        · simp [finalState, hrun, suggest_alternates_node]
        · simp only [finalState, hrun]
          simp [suggest_alternates_node, analyzedState, analyze_weather_node,
            fetch_weather_node, initialState]
    | true =>
        have hrun := runGraph_fav env req hb
        right
        refine ⟨?_, ?_, ?_⟩
        · simp only [finalState, hrun]
          simp [generate_itinerary_node, check_budget_node, search_attractions_node,
            search_hotels_node, search_flights_node, analyzedState, analyze_weather_node,
            fetch_weather_node, initialState]
        · cases hit : env.itineraryLLM with
          | ok t =>
              have ht := hne t hit
              simp only [finalState, hrun]
              simp [generate_itinerary_node, hit, ht]
          | error e =>
              simp only [finalState, hrun]
              simp [generate_itinerary_node, hit]
        · simp only [finalState, hrun]
          simp [generate_itinerary_node, check_budget_node, search_attractions_node,
            search_hotels_node, search_flights_node, analyzedState, analyze_weather_node,
            fetch_weather_node, initialState]
  · rintro ⟨⟨ha, -⟩, ⟨hbne, -, -⟩⟩
    rw [ha] at hbne
    exact Bool.noConfusion hbne

/-- Witness for the amended C2 at a concrete successful run. -/
theorem C2_witness :
    (((finalState envFavOK reqBangkok).needs_replanning = true
        ∧ (finalState envFavOK reqBangkok).itinerary_markdown = "")
      ∨ ((finalState envFavOK reqBangkok).needs_replanning = false
        ∧ (finalState envFavOK reqBangkok).itinerary_markdown ≠ ""
        ∧ (finalState envFavOK reqBangkok).alternate_destinations = []))
    ∧ ¬ (((finalState envFavOK reqBangkok).needs_replanning = true
        ∧ (finalState envFavOK reqBangkok).itinerary_markdown = "")
      ∧ ((finalState envFavOK reqBangkok).needs_replanning = false
        ∧ (finalState envFavOK reqBangkok).itinerary_markdown ≠ ""
        ∧ (finalState envFavOK reqBangkok).alternate_destinations = [])) :=
  C2_amended_terminal_shapes envFavOK reqBangkok
    (by intro t ht; simp [envFavOK] at ht; subst ht; decide)

/-- C6 counterexample: on a run where the weather analysis is unfavorable
and every executed step's external calls succeed, the trace log has 3
messages (fetch, analyze, suggest), matching the 3 executed steps — not
the 6 messages the claim states for the unfavorable-weather path. -/
theorem C6_counterexample :
    (executedNodes envUnfavOK reqBangkok).length = 3
    ∧ (plan_trip envUnfavOK reqBangkok).messages.length = 3
    ∧ (plan_trip envUnfavOK reqBangkok).messages.length ≠ 6 := by
  refine ⟨rfl, rfl, ?_⟩
  have h : (plan_trip envUnfavOK reqBangkok).messages.length = 3 := rfl
  omega

/-- C6 amended: when the weather fetch succeeds with non-empty data and
the analysis / alternates LLM calls succeed, every executed step appends
exactly one trace message, so the trace length equals the number of
executed steps: 3 on the unfavorable-weather path and 7 on the favorable
path.  (On failure branches, ANALYZE_WEATHER and SUGGEST_ALTERNATES
append no message, so only these hypotheses are needed; the search steps
append exactly one message whether they succeed or fail.) -/
theorem C6_amended_trace_length (env : Env) (req : TripRequest)
    (w : WeatherPayload) (wd : WeatherData) (a : WeatherAnalysis)
    (al : AlternateDestinations)
    (hw : env.weatherFetch = .ok w) (hwd : w.data = some wd)
    (ha : env.analyzeLLM = .ok a) (hal : env.alternatesLLM = .ok al) :
    (plan_trip env req).messages.length = (executedNodes env req).length
    ∧ ((analyzedState env req).weather_favorable = false →
        (plan_trip env req).messages.length = 3)
    ∧ ((analyzedState env req).weather_favorable = true →
        (plan_trip env req).messages.length = 7) := by
  cases hb : (analyzedState env req).weather_favorable with
  | false =>
      have hrun := runGraph_unfav env req hb
      have hlen : (plan_trip env req).messages.length = 3 := by
        simp only [plan_trip, finalState, hrun]
        simp [suggest_alternates_node, analyzedState, analyze_weather_node, analyzeRes,
          fetch_weather_node, initialState, hw, hwd, ha, hal]
      refine ⟨?_, fun _ => hlen, fun hc => Bool.noConfusion hc⟩
      rw [hlen]
      simp [executedNodes, hrun]
  | true =>
      have hrun := runGraph_fav env req hb
      have hlen : (plan_trip env req).messages.length = 7 := by
        simp only [plan_trip, finalState, hrun]
        simp [generate_itinerary_node, check_budget_node, search_attractions_node,
          search_hotels_node, search_flights_node, analyzedState, analyze_weather_node,
          analyzeRes, fetch_weather_node, initialState, hw, hwd, ha]
      refine ⟨?_, fun hc => Bool.noConfusion hc, fun _ => hlen⟩
      rw [hlen]
      simp [executedNodes, hrun]

/-- Witness for the amended C6 at a concrete unfavorable all-success run. -/
theorem C6_witness :
    (plan_trip envUnfavOK reqBangkok).messages.length
        = (executedNodes envUnfavOK reqBangkok).length
    ∧ ((analyzedState envUnfavOK reqBangkok).weather_favorable = false →
        (plan_trip envUnfavOK reqBangkok).messages.length = 3)
    ∧ ((analyzedState envUnfavOK reqBangkok).weather_favorable = true →
        (plan_trip envUnfavOK reqBangkok).messages.length = 7) :=
  C6_amended_trace_length envUnfavOK reqBangkok wPayloadOK
    { daily := [30, 31], hourly := [0, 1] }
    { is_favorable := false, summary := "storm", concerns := ["rain"],
      recommendations := "avoid" }
    { destinations := ["goa", "jaipur", "hampi"], reasons := ["dry", "dry", "dry"] }
    rfl rfl rfl rfl

/-- C4: `plan_trip` is a total function of the collaborator outcomes — it
always returns a complete `Outcome` record (totality of the embedding
witnesses that no node lets a collaborator exception propagate) — and
for every combination of collaborator failures the failed step's field
of the outcome is absent/default: failed weather fetch gives
`raw_data.weather = none`; a failure anywhere in the flight step (either
airport lookup or the search itself) gives `raw_data.flights = none`;
failed hotel / attraction searches give `none`; a failed alternates LLM
gives `alternate_destinations = []`; a failed itinerary LLM leaves
`itinerary_markdown` at its default or the fixed error markdown. -/
theorem C4_failures_absorbed (env : Env) (req : TripRequest) :
    (∀ e, env.weatherFetch = .error e → (plan_trip env req).raw_data.weather = none)
    ∧ (∀ e, env.depAirport = .error e → (plan_trip env req).raw_data.flights = none)
    ∧ (∀ e, env.arrAirport = .error e → (plan_trip env req).raw_data.flights = none)
    ∧ (∀ e, env.flightSearch = .error e → (plan_trip env req).raw_data.flights = none)
    ∧ (∀ e, env.hotelSearch = .error e → (plan_trip env req).raw_data.hotels = none)
    ∧ (∀ e, env.attractionSearch = .error e →
        (plan_trip env req).raw_data.attractions = none)
    ∧ (∀ e, env.alternatesLLM = .error e →
        (plan_trip env req).alternate_destinations = [])
    ∧ (∀ e, env.itineraryLLM = .error e →
        (plan_trip env req).itinerary_markdown = ""
        ∨ (plan_trip env req).itinerary_markdown
            = "# Error generating itinerary\n\nPlease try again.") := by
  by_cases hb : (analyzedState env req).weather_favorable = true
  · have hrun := runGraph_fav env req hb
    refine ⟨?_, ?_, ?_, ?_, ?_, ?_, ?_, ?_⟩ <;> intro e he <;>
      simp only [plan_trip, finalState, hrun]
    · simp [generate_itinerary_node, check_budget_node, search_attractions_node,
        search_hotels_node, search_flights_node, analyzedState, analyze_weather_node,
        analyzeRes, fetch_weather_node, initialState, he]
    · simp [generate_itinerary_node, check_budget_node, search_attractions_node,
        search_hotels_node, search_flights_node, he]
    · cases hd : env.depAirport <;>
        simp [generate_itinerary_node, check_budget_node, search_attractions_node,
          search_hotels_node, search_flights_node, hd, he]
    · cases hd : env.depAirport <;> cases har : env.arrAirport <;>
        simp [generate_itinerary_node, check_budget_node, search_attractions_node,
          search_hotels_node, search_flights_node, hd, har, he]
    · simp [generate_itinerary_node, check_budget_node, search_attractions_node,
        search_hotels_node, he]
    · simp [generate_itinerary_node, check_budget_node, search_attractions_node, he]
    · simp [generate_itinerary_node, check_budget_node, search_attractions_node,
        search_hotels_node, search_flights_node, analyzedState, analyze_weather_node,
        analyzeRes, fetch_weather_node, initialState]
    · right
      simp [generate_itinerary_node, he]
  · have hb' : (analyzedState env req).weather_favorable = false := by
      cases hfa : (analyzedState env req).weather_favorable with
      | true => exact absurd hfa hb
      | false => rfl
    have hrun := runGraph_unfav env req hb'
    refine ⟨?_, ?_, ?_, ?_, ?_, ?_, ?_, ?_⟩ <;> intro e he <;>
      simp only [plan_trip, finalState, hrun]
    · simp [suggest_alternates_node, analyzedState, analyze_weather_node,
        analyzeRes, fetch_weather_node, initialState, he]
    · simp [suggest_alternates_node, analyzedState, analyze_weather_node,
        analyzeRes, fetch_weather_node, initialState]
    · simp [suggest_alternates_node, analyzedState, analyze_weather_node,
        analyzeRes, fetch_weather_node, initialState]
    · simp [suggest_alternates_node, analyzedState, analyze_weather_node,
        analyzeRes, fetch_weather_node, initialState]
    · simp [suggest_alternates_node, analyzedState, analyze_weather_node,
        analyzeRes, fetch_weather_node, initialState]
    · simp [suggest_alternates_node, analyzedState, analyze_weather_node,
        analyzeRes, fetch_weather_node, initialState]
    · simp [suggest_alternates_node, he]
    · left
      simp [suggest_alternates_node, analyzedState, analyze_weather_node,
        analyzeRes, fetch_weather_node, initialState]

/-- Witness for C4 at the run where every collaborator fails. -/
theorem C4_witness :
    (plan_trip envAllFail reqBangkok).raw_data.weather = none
    ∧ (plan_trip envAllFail reqBangkok).raw_data.flights = none
    ∧ (plan_trip envAllFail reqBangkok).raw_data.hotels = none
    ∧ (plan_trip envAllFail reqBangkok).raw_data.attractions = none
    ∧ (plan_trip envAllFail reqBangkok).alternate_destinations = []
    ∧ ((plan_trip envAllFail reqBangkok).itinerary_markdown = ""
        ∨ (plan_trip envAllFail reqBangkok).itinerary_markdown
            = "# Error generating itinerary\n\nPlease try again.") :=
  ⟨(C4_failures_absorbed envAllFail reqBangkok).1 "weather down" rfl,
   (C4_failures_absorbed envAllFail reqBangkok).2.1 "amadeus down" rfl,
   (C4_failures_absorbed envAllFail reqBangkok).2.2.2.2.1 "serpapi down" rfl,
   (C4_failures_absorbed envAllFail reqBangkok).2.2.2.2.2.1 "tripadvisor down" rfl,
   (C4_failures_absorbed envAllFail reqBangkok).2.2.2.2.2.2.1 "llm down" rfl,
   (C4_failures_absorbed envAllFail reqBangkok).2.2.2.2.2.2.2 "llm down" rfl⟩

/-! ## The substring test of `check_budget_node`

The feasibility flag is derived from the substring test `'exceeds' in a`
over the recorded notes.  The "within budget" notes consist of fixed
text without the letter `x` plus a rendered number, so they can never
contain `"exceeds"`; the "exceeds" notes contain it literally. -/

theorem digitChar_ne_x (n : Nat) : Nat.digitChar n ≠ 'x' := by
  simp only [Nat.digitChar]
  repeat' rw [apply_ite (fun c => c ≠ 'x')]
  simp

theorem toDigitsCore_ne_x :
    ∀ (fuel n : Nat) (acc : List Char), (∀ c ∈ acc, c ≠ 'x') →
      ∀ c ∈ Nat.toDigitsCore 10 fuel n acc, c ≠ 'x' := by
  intro fuel
  induction fuel with
  | zero =>
      intro n acc hacc c hc
      simp only [Nat.toDigitsCore] at hc
      exact hacc c hc
  | succ fuel ih =>
      intro n acc hacc c hc
      simp only [Nat.toDigitsCore] at hc
      split at hc
      · rcases List.mem_cons.mp hc with h | h
        · subst h; exact digitChar_ne_x _
        · exact hacc c h
      · refine ih _ _ ?_ c hc
        intro c' hc'
        rcases List.mem_cons.mp hc' with h | h
        · subst h; exact digitChar_ne_x _
        · exact hacc c' h

theorem natRepr_ne_x (n : Nat) : ∀ c ∈ (Nat.repr n).data, c ≠ 'x' := by
  intro c hc
  have hdata : (Nat.repr n).data = Nat.toDigitsCore 10 (n + 1) n [] := rfl
  rw [hdata] at hc
  exact toDigitsCore_ne_x _ _ _ (by simp) c hc

theorem intToString_ne_x (i : Int) : ∀ c ∈ (toString i).data, c ≠ 'x' := by
  intro c hc
  cases i with
  | ofNat m =>
      have hdata : (toString (Int.ofNat m)).data = (Nat.repr m).data := rfl
      rw [hdata] at hc
      exact natRepr_ne_x m c hc
  | negSucc m =>
      have hdata : (toString (Int.negSucc m)).data = '-' :: (Nat.repr (m + 1)).data := rfl
      rw [hdata] at hc
      rcases List.mem_cons.mp hc with h | h
      · subst h; decide
      · exact natRepr_ne_x (m + 1) c h

theorem hasSubstr_exceeds_false (s : String) (h : ∀ c ∈ s.data, c ≠ 'x') :
    hasSubstr s "exceeds" = false := by
  unfold hasSubstr
  rw [decide_eq_false_iff_not]
  intro hinf
  exact h 'x' (hinf.subset (by decide)) rfl

theorem flights_within_no_exceeds (p : Int) :
    hasSubstr ("Flights within budget: ₹" ++ toString p) "exceeds" = false := by
  apply hasSubstr_exceeds_false
  intro c hc
  rw [String.data_append] at hc
  rcases List.mem_append.mp hc with h | h
  · have hlit : ∀ c ∈ ("Flights within budget: ₹" : String).data, c ≠ 'x' := by decide
    exact hlit c h
  · exact intToString_ne_x p c h

theorem hotels_within_no_exceeds (p : Int) :
    hasSubstr ("Hotels within budget: $" ++ toString p ++ "/night") "exceeds" = false := by
  apply hasSubstr_exceeds_false
  intro c hc
  rw [String.data_append, String.data_append] at hc
  rcases List.mem_append.mp hc with h | h
  · rcases List.mem_append.mp h with h' | h'
    · have hlit : ∀ c ∈ ("Hotels within budget: $" : String).data, c ≠ 'x' := by decide
      exact hlit c h'
    · exact intToString_ne_x p c h'
  · have hlit : ∀ c ∈ ("/night" : String).data, c ≠ 'x' := by decide
    exact hlit c h

theorem flights_exceeds_true (p b : Int) :
    hasSubstr ("Flight cost (₹" ++ toString p ++ ") exceeds budget (₹"
      ++ toString b ++ ")") "exceeds" = true := by
  unfold hasSubstr
  rw [decide_eq_true_eq]
  refine ⟨("Flight cost (₹" ++ toString p ++ ") ").data,
          (" budget (₹" ++ toString b ++ ")").data, ?_⟩
  simp [String.data_append, List.append_assoc]

theorem hotels_exceeds_true (p b : Int) :
    hasSubstr ("Hotel cost ($" ++ toString p ++ "/night) exceeds budget ($"
      ++ toString b ++ "/night)") "exceeds" = true := by
  unfold hasSubstr
  rw [decide_eq_true_eq]
  refine ⟨("Hotel cost ($" ++ toString p ++ "/night) ").data,
          (" budget ($" ++ toString b ++ "/night)").data, ?_⟩
  simp [String.data_append, List.append_assoc]

/-! ## The minimum selection of `check_budget_node` -/

theorem ltKey_some_of_true (a b : Option Int) (h : ltKey a b = true) : a.isSome := by
  cases a with
  | none => simp [ltKey] at h
  | some v => rfl

theorem pyMin_fold_some (key : FlightOption → Option Int) :
    ∀ (l : List FlightOption) (x : FlightOption),
      ((key x).isSome ∨ ∃ o ∈ l, (key o).isSome) →
      (key (l.foldl (fun best y => if ltKey (key y) (key best) then y else best) x)).isSome := by
  intro l
  induction l with
  | nil =>
      intro x h
      rcases h with h | ⟨o, ho, _⟩
      · exact h
      · simp at ho
  | cons y t ih =>
      intro x h
      simp only [List.foldl_cons]
      apply ih
      by_cases hk : ltKey (key y) (key x) = true
      · left
        rw [if_pos hk]
        exact ltKey_some_of_true _ _ hk
      · rw [if_neg hk]
        rcases h with hx | ⟨o, ho, hos⟩
        · exact Or.inl hx
        · rcases List.mem_cons.mp ho with rfl | hot
          · left
            cases hkx : key x with
            | some v => simp
            | none =>
                exfalso
                apply hk
                cases hky : key o with
                | none => simp [hky] at hos
                | some v => simp [ltKey, hkx, hky]
          · exact Or.inr ⟨o, hot, hos⟩

theorem pyMin_fold_key {α : Type} (key : α → Option Int) :
    ∀ (l : List α) (x : α), (key x).isSome → (∀ o ∈ l, (key o).isSome) →
      key (l.foldl (fun best y => if ltKey (key y) (key best) then y else best) x)
        = some ((l.map (fun o => (key o).getD 0)).foldl min ((key x).getD 0)) := by
  intro l
  induction l with
  | nil =>
      intro x hx _
      cases hkx : key x with
      | none => rw [hkx] at hx; simp at hx
      | some v => simp [hkx]
  | cons y t ih =>
      intro x hx hall
      have hy : (key y).isSome := hall y (List.mem_cons_self _ _)
      simp only [List.foldl_cons, List.map_cons]
      cases hkx : key x with
      | none => rw [hkx] at hx; simp at hx
      | some kx =>
          cases hky : key y with
          | none => rw [hky] at hy; simp at hy
          | some ky =>
              by_cases hlt : ky < kx
              · rw [show (if ltKey (some ky) (some kx) = true then y else x) = y from
                  by simp [ltKey, hlt]]
                rw [ih y hy (fun o ho => hall o (List.mem_cons_of_mem _ ho)), hky]
                simp [min_eq_right (le_of_lt hlt)]
              · rw [show (if ltKey (some ky) (some kx) = true then y else x) = x from
                  by simp [ltKey, hlt]]
                rw [ih x hx (fun o ho => hall o (List.mem_cons_of_mem _ ho)), hkx]
                simp [min_eq_left (le_of_not_lt hlt)]

theorem filterMap_key_map {α : Type} (key : α → Option Int) :
    ∀ l : List α, (∀ o ∈ l, (key o).isSome) →
      l.filterMap key = l.map (fun o => (key o).getD 0) := by
  intro l
  induction l with
  | nil => intro _; rfl
  | cons x t ih =>
      intro h
      have hx := h x (List.mem_cons_self _ _)
      cases hkx : key x with
      | none => rw [hkx] at hx; simp at hx
      | some v =>
          simp only [List.filterMap_cons, List.map_cons, hkx]
          rw [ih (fun o ho => h o (List.mem_cons_of_mem _ ho))]
          simp

theorem pyMin_priced {α : Type} (key : α → Option Int) (l : List α)
    (h : ∀ o ∈ l, (key o).isSome) (m : Int)
    (hm : (l.filterMap key).min? = some m) :
    ∃ c, pyMin key l = some c ∧ key c = some m := by
  cases l with
  | nil => simp [List.filterMap_nil, List.min?] at hm
  | cons x t =>
      have hx := h x (List.mem_cons_self _ _)
      have ht : ∀ o ∈ t, (key o).isSome := fun o ho => h o (List.mem_cons_of_mem _ ho)
      refine ⟨_, rfl, ?_⟩
      rw [pyMin_fold_key key t x hx ht]
      rw [filterMap_key_map key _ h] at hm
      simp only [List.map_cons, List.min?] at hm
      exact congrArg some (Option.some.inj hm)

/-- C5: when both a non-empty flights result and a non-empty hotels
result are present at CHECK_BUDGET (with every option priced, so that
"the cheapest price" is well defined), `budget_feasible` is false if and
only if the cheapest flight price exceeds the flight budget or the
cheapest hotel per-night rate exceeds the hotel budget; the hotel
comparison uses the per-night rate — the trip `duration` does not appear
in the condition. -/
theorem C5_budget_feasibility (s : TripState) (fp : FlightsPayload) (hp : HotelsPayload)
    (hf : s.flights = some fp) (hh : s.hotels = some hp)
    (hfall : ∀ o ∈ fp.best_flights, o.price.isSome)
    (hhall : ∀ p ∈ hp.properties, (hotelRate p).isSome)
    (mf mh : Int)
    (hmf : (fp.best_flights.filterMap (fun o => o.price)).min? = some mf)
    (hmh : (hp.properties.filterMap hotelRate).min? = some mh) :
    (check_budget_node s).budget_feasible = false
      ↔ (mf > s.budget_flight ∨ mh > s.budget_hotel) := by
  obtain ⟨cf, hcf, hcfk⟩ := pyMin_priced _ fp.best_flights hfall mf hmf
  obtain ⟨ch, hch, hchk⟩ := pyMin_priced _ hp.properties hhall mh hmh
  unfold check_budget_node
  rw [hf, hh]
  simp only [hcf, hch, hcfk, hchk, Option.getD_some]
  by_cases h1 : mf > s.budget_flight <;> by_cases h2 : mh > s.budget_hotel <;>
    simp [h1, h2, List.filter, flights_exceeds_true, hotels_exceeds_true,
      flights_within_no_exceeds, hotels_within_no_exceeds]

/-- Witness for C5: flights [50000] against budget 45000 and hotel rate
200 against budget 250 give an infeasible budget. -/
theorem C5_witness :
    (check_budget_node stateAtBudget).budget_feasible = false
      ↔ ((50000 : Int) > stateAtBudget.budget_flight
          ∨ (200 : Int) > stateAtBudget.budget_hotel) :=
  C5_budget_feasibility stateAtBudget
    { best_flights := [{ price := some 50000 }] }
    { properties := [{ rate_per_night := some { extracted_lowest := some 200 } }] }
    rfl rfl (by decide) (by decide) 50000 200 rfl rfl

/-- C8 counterexample: on a flights list whose single option has no
price, the minimum-price selection of CHECK_BUDGET selects exactly that
price-less option as the cheapest flight, so "an option missing its
price field is never selected as the cheapest flight" is false as
stated. -/
theorem C8_counterexample :
    pyMin (fun o => o.price) [FlightOption.mk none] = some (FlightOption.mk none)
    ∧ (FlightOption.mk none).price = none :=
  ⟨rfl, rfl⟩

/-- C8 amended: the minimum-price selection treats an option with no
price as having infinite price, so whenever at least one option carries
a price, the selected cheapest option has a price (a price-less option
is never selected); when no option has a price, Python's `min` returns
the first option, which is price-less. -/
theorem C8_amended_min_price (l : List FlightOption) (c : FlightOption)
    (hmin : pyMin (fun o => o.price) l = some c)
    (hsome : ∃ o ∈ l, o.price.isSome) : c.price.isSome := by
  cases l with
  | nil => simp [pyMin] at hmin
  | cons x t =>
      have hc : c = t.foldl
          (fun best y => if ltKey (y.price) (best.price) then y else best) x := by
        have : pyMin (fun o => o.price) (x :: t)
            = some (t.foldl (fun best y => if ltKey (y.price) (best.price) then y else best) x) := rfl
        rw [this] at hmin
        exact (Option.some.inj hmin).symm
      subst hc
      apply pyMin_fold_some (fun o => o.price) t x
      rcases hsome with ⟨o, ho, hos⟩
      rcases List.mem_cons.mp ho with rfl | hot
      · exact Or.inl hos
      · exact Or.inr ⟨o, hot, hos⟩

/-- Witness for the amended C8: with one price-less and one priced
option, the priced option is selected. -/
theorem C8_witness : (FlightOption.mk (some 5)).price.isSome :=
  C8_amended_min_price [FlightOption.mk none, FlightOption.mk (some 5)]
    (FlightOption.mk (some 5)) rfl
    ⟨FlightOption.mk (some 5), by decide, rfl⟩
